import Mathlib

/-!
Verification of the directive CLI deployment pipeline and version
lifecycle, shallowly embedded from the TypeScript source
(src/commands/deploy.ts and src/commands/delete.ts).  Machine words are
Nat values reduced mod 2^32 where the source uses 32-bit arithmetic
(the SHA-256 digest behind the build hash); external effects (git,
filesystem, network) are passed in explicitly as environment values.
-/

deriving instance DecidableEq for Except

namespace DirectiveCli

/-! ## JavaScript string helpers

The source branches on `String.prototype.includes` and on string
truthiness (`if (s)` is false exactly for the empty string).  These are
embedded directly. -/

/-- `listStartsWith l p` is true when `p` is a prefix of `l`. -/
def listStartsWith : List Char → List Char → Bool
  | _, [] => true
  | [], _ :: _ => false
  | a :: as, b :: bs => a == b && listStartsWith as bs

/-- `listContainsSub sub l` is true when `sub` occurs contiguously in `l`. -/
def listContainsSub (sub : List Char) : List Char → Bool
  | [] => sub.isEmpty
  | a :: as => listStartsWith (a :: as) sub || listContainsSub sub as

/-- JavaScript `s.includes(sub)`. -/
def jsIncludes (s sub : String) : Bool :=
  listContainsSub sub.toList s.toList

/-- JavaScript truthiness of an optional string option: `undefined` and
the empty string are falsy. -/
def jsTruthyStr : Option String → Bool
  | none => false
  | some s => !(s == "")

/-- JavaScript `s.trim()`: strip whitespace from both ends. -/
def jsTrim (s : String) : String :=
  String.mk (((s.toList.dropWhile Char.isWhitespace).reverse.dropWhile
    Char.isWhitespace).reverse)

/-! ## SHA-256 (crypto.createHash of the source), over byte lists

Embeds `crypto.createHash('sha256').update(buf).digest('hex')` from
prepareBundleForUpload.  Words are Nat mod 2^32. -/

/-- Reduce to a 32-bit word. -/
def w32 (n : Nat) : Nat := n % 4294967296

/-- 32-bit right rotation (0 < n < 32 in all uses). -/
def rotr (x n : Nat) : Nat := w32 ((x >>> n) ||| (x <<< (32 - n)))

/-- SHA-256 big sigma 0. -/
def bsig0 (x : Nat) : Nat := rotr x 2 ^^^ rotr x 13 ^^^ rotr x 22

/-- SHA-256 big sigma 1. -/
def bsig1 (x : Nat) : Nat := rotr x 6 ^^^ rotr x 11 ^^^ rotr x 25

/-- SHA-256 small sigma 0. -/
def ssig0 (x : Nat) : Nat := rotr x 7 ^^^ rotr x 18 ^^^ (x >>> 3)

/-- SHA-256 small sigma 1. -/
def ssig1 (x : Nat) : Nat := rotr x 17 ^^^ rotr x 19 ^^^ (x >>> 10)

/-- SHA-256 choice function. -/
def ch (x y z : Nat) : Nat := (x &&& y) ^^^ ((x ^^^ 4294967295) &&& z)

/-- SHA-256 majority function. -/
def maj (x y z : Nat) : Nat := (x &&& y) ^^^ (x &&& z) ^^^ (y &&& z)

/-- The 64 SHA-256 round constants (FIPS 180-4, written in decimal). -/
def kConsts : List Nat :=
  [1116352408, 1899447441, 3049323471, 3921009573, 961987163,
   1508970993, 2453635748, 2870763221, 3624381080, 310598401,
   607225278, 1426881987, 1925078388, 2162078206, 2614888103,
   3248222580, 3835390401, 4022224774, 264347078, 604807628,
   770255983, 1249150122, 1555081692, 1996064986, 2554220882,
   2821834349, 2952996808, 3210313671, 3336571891, 3584528711,
   113926993, 338241895, 666307205, 773529912, 1294757372,
   1396182291, 1695183700, 1986661051, 2177026350, 2456956037,
   2730485921, 2820302411, 3259730800, 3345764771, 3516065817,
   3600352804, 4094571909, 275423344, 430227734, 506948616,
   659060556, 883997877, 958139571, 1322822218, 1537002063,
   1747873779, 1955562222, 2024104815, 2227730452, 2361852424,
   2428436474, 2756734187, 3204031479, 3329325298]

/-- `n` bytes of `v`, big-endian. -/
def toBytesBE : Nat → Nat → List Nat
  | 0, _ => []
  | n + 1, v => toBytesBE n (v / 256) ++ [v % 256]

/-- Pack bytes into 32-bit words, big-endian. -/
def toWordsBE : List Nat → List Nat
  | b0 :: b1 :: b2 :: b3 :: rest =>
      (b0 * 16777216 + b1 * 65536 + b2 * 256 + b3) :: toWordsBE rest
  | _ => []

/-- SHA-256 padding: append 0x80, zero fill, and the 64-bit bit length. -/
def padMessage (msg : List Nat) : List Nat :=
  msg ++ [128] ++ List.replicate ((64 + 55 - msg.length % 64) % 64) 0
      ++ toBytesBE 8 (msg.length * 8)

/-- Split into 64-byte blocks; `fuel` bounds the number of blocks and is
always given as the full length, which suffices since every step consumes
at least one byte. -/
def chunks64go : Nat → List Nat → List (List Nat)
  | 0, _ => []
  | _, [] => []
  | fuel + 1, a :: rest => ((a :: rest).take 64) :: chunks64go fuel ((a :: rest).drop 64)

/-- Split into 64-byte blocks. -/
def chunks64 (l : List Nat) : List (List Nat) :=
  chunks64go l.length l

/-- The 64-entry message schedule of one block. -/
def msgSchedule (block : List Nat) : Array Nat :=
  (List.range 48).foldl
    (fun ws i =>
      let t := i + 16
      ws.push (w32 (ssig1 ws[t - 2]! + ws[t - 7]! + ssig0 ws[t - 15]! + ws[t - 16]!)))
    (toWordsBE block).toArray

/-- The eight 32-bit words of the SHA-256 state. -/
structure Hash8 where
  a : Nat
  b : Nat
  c : Nat
  d : Nat
  e : Nat
  f : Nat
  g : Nat
  h : Nat
deriving DecidableEq, Repr

/-- One compression round, driven by a (round constant, schedule word) pair. -/
def roundStep (st : Hash8) (p : Nat × Nat) : Hash8 :=
  let t1 := w32 (st.h + bsig1 st.e + ch st.e st.f st.g + p.1 + p.2)
  let t2 := w32 (bsig0 st.a + maj st.a st.b st.c)
  ⟨w32 (t1 + t2), st.a, st.b, st.c, w32 (st.d + t1), st.e, st.f, st.g⟩

/-- Compress one 64-byte block into the running state. -/
def compressBlock (h0 : Hash8) (block : List Nat) : Hash8 :=
  let ws := msgSchedule block
  let st := (kConsts.zip ws.toList).foldl roundStep h0
  ⟨w32 (h0.a + st.a), w32 (h0.b + st.b), w32 (h0.c + st.c), w32 (h0.d + st.d),
   w32 (h0.e + st.e), w32 (h0.f + st.f), w32 (h0.g + st.g), w32 (h0.h + st.h)⟩

/-- SHA-256 initial state (FIPS 180-4, written in decimal). -/
def initHash : Hash8 :=
  ⟨1779033703, 3144134277, 1013904242, 2773480762,
   1359893119, 2600822924, 528734635, 1541459225⟩

/-- SHA-256 of a byte list, as the final eight-word state. -/
def sha256state (msg : List Nat) : Hash8 :=
  (chunks64 (padMessage msg)).foldl compressBlock initHash

/-- One lowercase hexadecimal digit. -/
def hexDigit (n : Nat) : Char :=
  if n < 10 then Char.ofNat (48 + n) else Char.ofNat (87 + n)

/-- `n` hex digits of `v`, big-endian. -/
def toHexDigits : Nat → Nat → List Char
  | 0, _ => []
  | n + 1, v => toHexDigits n (v / 16) ++ [hexDigit (v % 16)]

/-- The 64 hex characters of a final state. -/
def stateHexList (s : Hash8) : List Char :=
  toHexDigits 8 s.a ++ toHexDigits 8 s.b ++ toHexDigits 8 s.c ++ toHexDigits 8 s.d
    ++ toHexDigits 8 s.e ++ toHexDigits 8 s.f ++ toHexDigits 8 s.g ++ toHexDigits 8 s.h

/-- Hex digest string: `crypto.createHash of sha256 ... digest('hex')`. -/
def sha256hex (msg : List Nat) : String :=
  String.mk (stateHexList (sha256state msg))

/-- First `n` characters of a string (ASCII-safe `substring(0, n)`). -/
def strTake (s : String) (n : Nat) : String :=
  String.mk (s.toList.take n)

/-- The build hash of prepareBundleForUpload (deploy.ts):
`createHash('sha256').update(bundleBuffer).digest('hex').substring(0, 16)`. -/
def buildHash (bytes : List Nat) : String :=
  strTake (sha256hex bytes) 16

/-! ## GitStateGuard: checkGitStatus (deploy.ts)

The guard runs `git status --porcelain` and branches on the deploy
strategy.  The whole body sits in a try/catch whose handler rethrows
exactly when the caught error message contains the literal
`Working directory has uncommitted changes` and otherwise logs a warning
and proceeds.  External command results arrive through `GitEnv`: an
`Except` error carries the message of the exception the command raised. -/

/-- The four `--strategy` values of the deploy command. -/
inductive GitPolicy where
  | strict
  | warn
  | autoCommit
  | ignore
deriving DecidableEq, Repr

/-- Results of the external git commands used by checkGitStatus:
the status query output and the auto-commit command outcome. -/
structure GitEnv where
  statusResult : Except String String
  commitResult : Except String Unit
deriving DecidableEq, Repr

/-- Outcome of checkGitStatus: the error it rethrows (if any), the
warnings it logged, whether a commit was created, and whether the
status query ran. -/
structure GuardOutcome where
  raised : Option String
  warnings : List String
  committed : Bool
  statusQueried : Bool
deriving DecidableEq, Repr

/-- The substring the catch handler of checkGitStatus tests for. -/
def uncommittedMarker : String := "Working directory has uncommitted changes"

/-- The message of the error thrown under strategy strict. -/
def strictAbortMsg : String :=
  "Working directory has uncommitted changes. Commit first or use --strategy warn/ignore"

/-- The warning printed when the tree is dirty under strategy warn. -/
def dirtyWarnMsg : String := "Warning: Working directory has uncommitted changes"

/-- The warning printed by the catch handler when it swallows an error. -/
def cannotCheckMsg : String := "Warning: Cannot check Git status"

/-- The catch handler of checkGitStatus: rethrow when the message
contains the marker, otherwise warn and proceed. -/
def gitCatch (m : String) (committed : Bool) : GuardOutcome :=
  if jsIncludes m uncommittedMarker then ⟨some m, [], committed, true⟩
  else ⟨none, [cannotCheckMsg], committed, true⟩

/-- checkGitStatus (deploy.ts lines 676 to 705). -/
def checkGitStatus (strategy : GitPolicy) (message : Option String) (env : GitEnv) :
    GuardOutcome :=
  if strategy = .ignore then ⟨none, [], false, false⟩
  else
    match env.statusResult with
    | .error m => gitCatch m false
    | .ok out =>
      if jsTrim out ≠ "" then
        match strategy with
        | .strict => gitCatch strictAbortMsg false
        | .warn => ⟨none, [dirtyWarnMsg], false, true⟩
        | .autoCommit =>
          match env.commitResult with
          | .ok _ => ⟨none, [], true, true⟩
          | .error m => gitCatch m false
        | .ignore => ⟨none, [], false, true⟩
      else ⟨none, [], false, true⟩

/-! ## VersionUploadClient: uploadBundleToServer (deploy.ts)

The network exchange is abstracted as the structured response the fetch
produced; the function embeds the interpretation logic: non-ok transport
status throws `HTTP status: text`, an envelope with a false success flag
throws the backend error (or `Upload failed` when that is absent or
empty, per JavaScript truthiness), and the outer catch prefixes
`Failed to upload bundle: `. -/

/-- The success payload of an upload. -/
structure UploadResultData where
  deploymentId : String
  version : String
  bundleSize : Nat
  url : Option String
  rollbackVersion : Option String
deriving DecidableEq, Repr

/-- The transport status and parsed response envelope of the upload
request. -/
structure ServerResponse where
  status : Nat
  errorText : String
  success : Bool
  errMsg : Option String
  payload : Option UploadResultData
deriving DecidableEq, Repr

/-- `response.ok` of fetch: status in the range 200 to 299. -/
def responseOk (r : ServerResponse) : Bool :=
  decide (200 ≤ r.status ∧ r.status ≤ 299)

/-- `result.error || 'Upload failed'` (empty string is falsy). -/
def backendErrMsg (r : ServerResponse) : String :=
  match r.errMsg with
  | some m => if m = "" then "Upload failed" else m
  | none => "Upload failed"

/-- uploadBundleToServer (deploy.ts lines 807 to 856), as a function of
the server response. -/
def uploadBundleToServer (resp : ServerResponse) :
    Except String (Option UploadResultData) :=
  if !responseOk resp then
    .error ("Failed to upload bundle: HTTP " ++ toString resp.status ++ ": " ++ resp.errorText)
  else if !resp.success then
    .error ("Failed to upload bundle: " ++ backendErrMsg resp)
  else
    .ok resp.payload

/-! ## VersionLifecycleManager: the deploy pipeline (deploy.ts)

deployCommand runs authentication, project validation, name and id
resolution, local agent checks, then the git guard, compile, bundle
preparation and upload, in that order; any raised error reaches the
action-level catch unchanged.  Each external effect is an `Except`
result in the environment. -/

/-- Raw ingredients of a prepared bundle: the artifact bytes and the
declared version from agent.json. -/
structure BundleRaw where
  bundleBuffer : List Nat
  version : String
deriving DecidableEq, Repr

/-- A prepared bundle: bytes, declared version and computed build hash. -/
structure BundleData where
  bundleBuffer : List Nat
  version : String
  hash : String
deriving DecidableEq, Repr

/-- Environment of one deployCommand invocation. -/
structure DeployEnv where
  authResult : Except String Unit
  projectResult : Except String Unit
  projectNameResult : Except String String
  agentIdResult : Except String String
  agentExistsResult : Except String Unit
  git : GitEnv
  compileResult : Except String Unit
  prepareRaw : Except String BundleRaw
  uploadResponse : ServerResponse
deriving DecidableEq, Repr

/-- compileAgent (deploy.ts lines 710 to 723): a failing build throws
with the prefix `Agent compilation failed: `. -/
def compileAgent (env : DeployEnv) : Except String Unit :=
  match env.compileResult with
  | .ok _ => .ok ()
  | .error m => .error ("Agent compilation failed: " ++ m)

/-- prepareBundleForUpload (deploy.ts lines 728 to 802): on success the
build hash is computed from the artifact bytes; any internal failure is
rethrown with the prefix `Failed to prepare bundle: `. -/
def prepareBundleForUpload (env : DeployEnv) : Except String BundleData :=
  match env.prepareRaw with
  | .ok raw => .ok ⟨raw.bundleBuffer, raw.version, buildHash raw.bundleBuffer⟩
  | .error m => .error ("Failed to prepare bundle: " ++ m)

/-- Which pipeline stages ran in one invocation. -/
structure DeployTrace where
  gitChecked : Bool
  compileCount : Nat
  prepareCount : Nat
  uploadCount : Nat
deriving DecidableEq, Repr

/-- deployCommand (deploy.ts lines 544 to 591): the strict stage
sequence, returning the surfaced result and the stage trace. -/
def deployPipeline (strategy : GitPolicy) (message : Option String) (env : DeployEnv) :
    Except String (Option UploadResultData) × DeployTrace :=
  match env.authResult with
  | .error e => (.error e, ⟨false, 0, 0, 0⟩)
  | .ok _ =>
  match env.projectResult with
  | .error e => (.error e, ⟨false, 0, 0, 0⟩)
  | .ok _ =>
  match env.projectNameResult with
  | .error e => (.error e, ⟨false, 0, 0, 0⟩)
  | .ok _ =>
  match env.agentIdResult with
  | .error e => (.error e, ⟨false, 0, 0, 0⟩)
  | .ok _ =>
  match env.agentExistsResult with
  | .error e => (.error e, ⟨false, 0, 0, 0⟩)
  | .ok _ =>
  match (checkGitStatus strategy message env.git).raised with
  | some e => (.error e, ⟨true, 0, 0, 0⟩)
  | none =>
  match compileAgent env with
  | .error e => (.error e, ⟨true, 1, 0, 0⟩)
  | .ok _ =>
  match prepareBundleForUpload env with
  | .error e => (.error e, ⟨true, 1, 1, 0⟩)
  | .ok _ =>
  match uploadBundleToServer env.uploadResponse with
  | .error e => (.error e, ⟨true, 1, 1, 1⟩)
  | .ok d => (.ok d, ⟨true, 1, 1, 1⟩)

/-- All preliminary steps of deployCommand (before the git guard)
succeeded. -/
def prelimsOk (env : DeployEnv) : Prop :=
  env.authResult = .ok () ∧ env.projectResult = .ok () ∧
  (∃ n, env.projectNameResult = .ok n) ∧ (∃ i, env.agentIdResult = .ok i) ∧
  env.agentExistsResult = .ok ()

/-! ## Version deletion (delete.ts)

deleteAgentVersion fetches the version set, looks up the target, and
refuses deletion of a missing or active version before any network
deletion call; deleteEntireAgent deletes all version artifacts
best-effort and then the agent record. -/

/-- A version record as returned by the backend. -/
structure Version where
  version : String
  status : String
  bundleSize : Nat
  deployedAt : String
deriving DecidableEq, Repr

/-- How a single-version deletion ended. -/
inductive DeleteVersionOutcome where
  | versionNotFound
  | activeVersion
  | cancelled
  | deleted
deriving DecidableEq, Repr

/-- deleteAgentVersion (delete.ts lines 184 to 229): the outcome and the
list of version identifiers for which the network deletion call
`apiService.deleteAgentVersion` was issued.  `force` is the `--force`
flag and `userConfirms` the interactive confirmation. -/
def deleteAgentVersion (versions : List Version) (target : String)
    (force userConfirms : Bool) : DeleteVersionOutcome × List String :=
  match versions.find? (fun v => v.version == target) with
  | none => (.versionNotFound, [])
  | some v =>
    if v.status == "active" then (.activeVersion, [])
    else if force || userConfirms then (.deleted, [target])
    else (.cancelled, [])

/-- The version set as the client sees it after the network deletions of
one operation were applied. -/
def remainingVersions (versions : List Version) (deletedIds : List String) :
    List Version :=
  versions.filter (fun v => !(deletedIds.contains v.version))

/-- The two network deletion calls of deleteEntireAgent. -/
inductive ApiCall where
  | deleteAllAgentVersions
  | deleteAgent
deriving DecidableEq, Repr

/-- Environment of deleteEntireAgent: the results of the two API calls. -/
structure AgentDeleteEnv where
  versionsDeleteResult : Except String Unit
  agentDeleteResult : Except String Unit
deriving DecidableEq, Repr

/-- Outcome of deleteEntireAgent: the error it let propagate, the API
calls it attempted in order, and the warnings it logged. -/
structure AgentDeleteOutcome where
  raised : Option String
  calls : List ApiCall
  warnings : List String
deriving DecidableEq, Repr

/-- The warning printed when deleting the stored bundles fails. -/
def bundleDeleteWarnMsg : String := "Warning: Could not delete bundle versions"

/-- deleteEntireAgent (delete.ts lines 140 to 179): artifact deletion is
attempted first inside a try/catch that only logs a warning; the agent
record deletion is attempted afterwards in every proceeding run. -/
def deleteEntireAgent (force userConfirms : Bool) (env : AgentDeleteEnv) :
    AgentDeleteOutcome :=
  if !(force || userConfirms) then ⟨none, [], []⟩
  else
    let warns : List String :=
      match env.versionsDeleteResult with
      | .ok _ => []
      | .error _ => [bundleDeleteWarnMsg]
    match env.agentDeleteResult with
    | .ok _ => ⟨none, [.deleteAllAgentVersions, .deleteAgent], warns⟩
    | .error e => ⟨some e, [.deleteAllAgentVersions, .deleteAgent], warns⟩

/-! ## The delete agent command action (delete.ts lines 85 to 124)

The option checks run before the authentication check and before the
first network call (`apiService.getAgents`). -/

/-- Options of `directive delete agent`.  `version` is `none` when
`--version` was not supplied. -/
structure DeleteAgentOptions where
  all : Bool
  version : Option String
  force : Bool
deriving DecidableEq, Repr

/-- Environment of the command action up to agent lookup. -/
structure DeleteCmdEnv where
  loggedIn : Bool
  projectValid : Bool
  projectName : Option String
deriving DecidableEq, Repr

/-- Observable prefix of one `delete agent` action: the error raised
before the per-agent work, whether the authentication check ran, and
whether a network call was issued. -/
structure DeleteCmdOutcome where
  raised : Option String
  authChecked : Bool
  networkCalled : Bool
deriving DecidableEq, Repr

/-- The action of `directive delete agent` up to the `getAgents` network
call, embedding the two option checks with JavaScript truthiness (an
empty `--version` string is falsy). -/
def deleteAgentCommandAction (opts : DeleteAgentOptions) (env : DeleteCmdEnv) :
    DeleteCmdOutcome :=
  if opts.all && jsTruthyStr opts.version then
    ⟨some "Cannot use --all and --version options together", false, false⟩
  else if !opts.all && !jsTruthyStr opts.version then
    ⟨some "Must specify either --all or --version <version>", false, false⟩
  else if !env.loggedIn then
    ⟨some "Authentication required. Use: directive login", true, false⟩
  else if !env.projectValid then
    ⟨some "Not in a Directive project. Run this command from the root of a Directive project.",
      true, false⟩
  else
    match env.projectName with
    | none => ⟨some "Cannot read project configuration", true, false⟩
    | some _ => ⟨none, true, true⟩

/-- The sixteen lowercase hexadecimal characters. -/
def hexChars : List Char := "0123456789abcdef".toList

/-! ## Helper lemmas -/

theorem toHexDigits_length (n : Nat) : ∀ v, (toHexDigits n v).length = n := by
  induction n with
  | zero => intro v; rfl
  | succ k ih => intro v; simp [toHexDigits, ih]

theorem hexDigit_mem_hexChars : ∀ k, k < 16 → hexDigit k ∈ hexChars := by decide

theorem toHexDigits_mem (n : Nat) : ∀ v c, c ∈ toHexDigits n v → c ∈ hexChars := by
  induction n with
  | zero => intro v c hc; simp [toHexDigits] at hc
  | succ k ih =>
    intro v c hc
    simp only [toHexDigits, List.mem_append, List.mem_singleton] at hc
    rcases hc with h | h
    · exact ih _ _ h
    · rw [h]; exact hexDigit_mem_hexChars _ (Nat.mod_lt _ (by norm_num))

theorem stateHexList_length (s : Hash8) : (stateHexList s).length = 64 := by
  simp [stateHexList, toHexDigits_length]

theorem stateHexList_mem (s : Hash8) (c : Char) (hc : c ∈ stateHexList s) :
    c ∈ hexChars := by
  simp only [stateHexList, List.mem_append] at hc
  rcases hc with ((((((h | h) | h) | h) | h) | h) | h) | h <;> exact toHexDigits_mem 8 _ _ h

theorem gitCatch_raised (m : String) (c : Bool) (e : String)
    (h : (gitCatch m c).raised = some e) : jsIncludes e uncommittedMarker = true := by
  unfold gitCatch at h
  cases hj : jsIncludes m uncommittedMarker with
  | true => rw [hj] at h; simp at h; exact h ▸ hj
  | false => rw [hj] at h; simp at h

theorem responseOk_iff (r : ServerResponse) :
    responseOk r = true ↔ (200 ≤ r.status ∧ r.status ≤ 299) := by
  simp [responseOk]

/-! ## The claims -/

/-- C1: for every fetched version set and every target whose record has
status active, deleteAgentVersion fails with the active-version error,
issues no network deletion call, and leaves the version set unchanged. -/
theorem deleteAgentVersion_active_refused
    (versions : List Version) (target : String) (force userConfirms : Bool)
    (v : Version)
    (hfind : versions.find? (fun w => w.version == target) = some v)
    (hactive : v.status = "active") :
    deleteAgentVersion versions target force userConfirms = (.activeVersion, []) ∧
    remainingVersions versions
      (deleteAgentVersion versions target force userConfirms).2 = versions := by
  have h1 : deleteAgentVersion versions target force userConfirms =
      (.activeVersion, ([] : List String)) := by
    simp [deleteAgentVersion, hfind, hactive]
  exact ⟨h1, by rw [h1]; simp [remainingVersions]⟩

theorem deleteAgentVersion_active_refused_witness :
    deleteAgentVersion
      [⟨"v1", "active", 10240, "2024-01-01"⟩, ⟨"v2", "inactive", 2048, "2024-01-02"⟩]
      "v1" false true = (.activeVersion, []) ∧
    remainingVersions
      [⟨"v1", "active", 10240, "2024-01-01"⟩, ⟨"v2", "inactive", 2048, "2024-01-02"⟩]
      (deleteAgentVersion
        [⟨"v1", "active", 10240, "2024-01-01"⟩, ⟨"v2", "inactive", 2048, "2024-01-02"⟩]
        "v1" false true).2 =
      [⟨"v1", "active", 10240, "2024-01-01"⟩, ⟨"v2", "inactive", 2048, "2024-01-02"⟩] :=
  deleteAgentVersion_active_refused _ "v1" false true
    ⟨"v1", "active", 10240, "2024-01-01"⟩ rfl rfl

/-- C5: a target version identifier matching no record fails with the
version-not-found error and performs no network deletion call. -/
theorem deleteAgentVersion_notFound_no_network
    (versions : List Version) (target : String) (force userConfirms : Bool)
    (hfind : versions.find? (fun w => w.version == target) = none) :
    deleteAgentVersion versions target force userConfirms = (.versionNotFound, []) := by
  simp [deleteAgentVersion, hfind]

theorem deleteAgentVersion_notFound_no_network_witness :
    deleteAgentVersion
      [⟨"v1", "inactive", 10240, "2024-01-01"⟩] "v9" true false =
      (.versionNotFound, []) :=
  deleteAgentVersion_notFound_no_network _ "v9" true false rfl

/-- C4: the build hash is the first 16 hexadecimal characters of the
SHA-256 digest of the artifact bytes, and it is a deterministic function
of those bytes: byte-identical artifacts hash identically. -/
theorem buildHash_sha256_prefix_deterministic :
    (∀ bytes : List Nat, buildHash bytes = strTake (sha256hex bytes) 16) ∧
    (∀ bytes : List Nat, (buildHash bytes).length = 16) ∧
    (∀ bytes : List Nat, ∀ c ∈ (buildHash bytes).toList, c ∈ hexChars) ∧
    (∀ a b : List Nat, a = b → buildHash a = buildHash b) := by
  refine ⟨fun _ => rfl, ?_, ?_, fun a b h => by rw [h]⟩
  · intro bytes
    have h0 : (buildHash bytes).length =
        ((stateHexList (sha256state bytes)).take 16).length := rfl
    rw [h0, List.length_take, stateHexList_length]
    norm_num
  · intro bytes c hc
    have hc2 : c ∈ (stateHexList (sha256state bytes)).take 16 := hc
    exact stateHexList_mem _ _ (List.take_subset _ _ hc2)

theorem buildHash_sha256_prefix_deterministic_witness :
    buildHash [10, 20, 30] = strTake (sha256hex [10, 20, 30]) 16 ∧
    buildHash [10, 20, 30] = buildHash [10, 20, 30] :=
  ⟨buildHash_sha256_prefix_deterministic.1 _,
   buildHash_sha256_prefix_deterministic.2.2.2 _ _ rfl⟩

-- Known-answer check of the embedded digest: the build hash of the
-- empty artifact is the 16-character prefix of the SHA-256 of the empty
-- byte string.
set_option maxRecDepth 10000 in
theorem buildHash_known_answer_empty : buildHash [] = "e3b0c44298fc1c14" := by decide

/-- C2: under strategy strict, a positively detected uncommitted change
(a nonempty trimmed status output) aborts the pipeline with the blocked
error before the compile step and before the upload request: both
observe zero invocations. -/
theorem deploy_strict_dirty_blocks
    (env : DeployEnv) (message : Option String) (s : String)
    (hpre : prelimsOk env)
    (hstatus : env.git.statusResult = .ok s) (hdirty : jsTrim s ≠ "") :
    deployPipeline .strict message env = (.error strictAbortMsg, ⟨true, 0, 0, 0⟩) := by
  obtain ⟨h1, h2, ⟨n, h3⟩, ⟨i, h4⟩, h5⟩ := hpre
  have hinc : jsIncludes strictAbortMsg uncommittedMarker = true := by decide
  have hg : (checkGitStatus .strict message env.git).raised = some strictAbortMsg := by
    simp [checkGitStatus, hstatus, hdirty, gitCatch, hinc]
  simp [deployPipeline, h1, h2, h3, h4, h5, hg]

theorem deploy_strict_dirty_blocks_witness :
    deployPipeline .strict none
      ⟨.ok (), .ok (), .ok "proj", .ok "agent_1", .ok (),
       ⟨.ok " M agents/demo/agent.ts", .ok ()⟩, .ok (), .ok ⟨[1, 2, 3], "1.0.1"⟩,
       ⟨200, "", true, none, none⟩⟩ =
      (.error strictAbortMsg, ⟨true, 0, 0, 0⟩) :=
  deploy_strict_dirty_blocks _ none " M agents/demo/agent.ts"
    ⟨rfl, rfl, ⟨"proj", rfl⟩, ⟨"agent_1", rfl⟩, rfl⟩ rfl (by decide)

/-- C3: deployCommand runs the git guard, compile, bundle preparation
and upload in strict sequence; a failing stage aborts every later stage
and its error is surfaced to the command boundary unchanged. -/
theorem deploy_stage_failure_aborts
    (env : DeployEnv) (strategy : GitPolicy) (message : Option String)
    (hpre : prelimsOk env) :
    (∀ e, (checkGitStatus strategy message env.git).raised = some e →
      deployPipeline strategy message env = (.error e, ⟨true, 0, 0, 0⟩)) ∧
    ((checkGitStatus strategy message env.git).raised = none →
      ∀ e, compileAgent env = .error e →
      deployPipeline strategy message env = (.error e, ⟨true, 1, 0, 0⟩)) ∧
    ((checkGitStatus strategy message env.git).raised = none →
      compileAgent env = .ok () →
      ∀ e, prepareBundleForUpload env = .error e →
      deployPipeline strategy message env = (.error e, ⟨true, 1, 1, 0⟩)) ∧
    ((checkGitStatus strategy message env.git).raised = none →
      compileAgent env = .ok () →
      (∃ b, prepareBundleForUpload env = .ok b) →
      ∀ e, uploadBundleToServer env.uploadResponse = .error e →
      deployPipeline strategy message env = (.error e, ⟨true, 1, 1, 1⟩)) := by
  obtain ⟨h1, h2, ⟨n, h3⟩, ⟨i, h4⟩, h5⟩ := hpre
  refine ⟨?_, ?_, ?_, ?_⟩
  · intro e hg
    simp [deployPipeline, h1, h2, h3, h4, h5, hg]
  · intro hg e hc
    simp [deployPipeline, h1, h2, h3, h4, h5, hg, hc]
  · intro hg hc e hp
    simp [deployPipeline, h1, h2, h3, h4, h5, hg, hc, hp]
  · intro hg hc hb e hu
    obtain ⟨b, hb⟩ := hb
    simp [deployPipeline, h1, h2, h3, h4, h5, hg, hc, hb, hu]

theorem deploy_stage_failure_aborts_witness :
    deployPipeline .strict none
      ⟨.ok (), .ok (), .ok "proj", .ok "agent_1", .ok (),
       ⟨.ok "", .ok ()⟩, .error "webpack exited with code 1", .ok ⟨[], "1.0.0"⟩,
       ⟨200, "", true, none, none⟩⟩ =
      (.error "Agent compilation failed: webpack exited with code 1", ⟨true, 1, 0, 0⟩) :=
  (deploy_stage_failure_aborts
      ⟨.ok (), .ok (), .ok "proj", .ok "agent_1", .ok (),
       ⟨.ok "", .ok ()⟩, .error "webpack exited with code 1", .ok ⟨[], "1.0.0"⟩,
       ⟨200, "", true, none, none⟩⟩ .strict none
      ⟨rfl, rfl, ⟨"proj", rfl⟩, ⟨"agent_1", rfl⟩, rfl⟩).2.1 rfl
    "Agent compilation failed: webpack exited with code 1" rfl

/-- C6: the upload returns the success payload exactly when the
transport status is 2xx and the envelope success flag is true; a non-2xx
status fails with the transport status in the message, and a false
success flag fails with the backend-provided message. -/
theorem uploadBundleToServer_envelope (resp : ServerResponse) :
    ((∃ d, uploadBundleToServer resp = .ok d) ↔
      (200 ≤ resp.status ∧ resp.status ≤ 299 ∧ resp.success = true)) ∧
    (200 ≤ resp.status → resp.status ≤ 299 → resp.success = true →
      uploadBundleToServer resp = .ok resp.payload) ∧
    (¬(200 ≤ resp.status ∧ resp.status ≤ 299) →
      uploadBundleToServer resp =
        .error ("Failed to upload bundle: HTTP " ++ toString resp.status ++ ": "
          ++ resp.errorText)) ∧
    (200 ≤ resp.status → resp.status ≤ 299 → resp.success = false →
      uploadBundleToServer resp =
        .error ("Failed to upload bundle: " ++ backendErrMsg resp)) := by
  have hok2 : 200 ≤ resp.status → resp.status ≤ 299 → resp.success = true →
      uploadBundleToServer resp = .ok resp.payload := by
    intro h1 h2 h3
    have h : responseOk resp = true := (responseOk_iff resp).mpr ⟨h1, h2⟩
    simp [uploadBundleToServer, h, h3]
  have herr1 : ¬(200 ≤ resp.status ∧ resp.status ≤ 299) →
      uploadBundleToServer resp =
        .error ("Failed to upload bundle: HTTP " ++ toString resp.status ++ ": "
          ++ resp.errorText) := by
    intro h
    have hfalse : responseOk resp = false := by
      cases hv : responseOk resp with
      | false => rfl
      | true => exact absurd ((responseOk_iff resp).mp hv) h
    simp [uploadBundleToServer, hfalse]
  have herr2 : 200 ≤ resp.status → resp.status ≤ 299 → resp.success = false →
      uploadBundleToServer resp =
        .error ("Failed to upload bundle: " ++ backendErrMsg resp) := by
    intro h1 h2 h3
    have h : responseOk resp = true := (responseOk_iff resp).mpr ⟨h1, h2⟩
    simp [uploadBundleToServer, h, h3]
  refine ⟨⟨?_, ?_⟩, hok2, herr1, herr2⟩
  · rintro ⟨d, hd⟩
    cases hv : responseOk resp with
    | false => simp [uploadBundleToServer, hv] at hd
    | true =>
      cases hs : resp.success with
      | false => simp [uploadBundleToServer, hv, hs] at hd
      | true =>
        obtain ⟨h1, h2⟩ := (responseOk_iff resp).mp hv
        exact ⟨h1, h2, rfl⟩
  · rintro ⟨h1, h2, h3⟩
    exact ⟨resp.payload, hok2 h1 h2 h3⟩

theorem uploadBundleToServer_envelope_witness :
    uploadBundleToServer ⟨500, "Internal Server Error", false, none, none⟩ =
      .error "Failed to upload bundle: HTTP 500: Internal Server Error" :=
  (uploadBundleToServer_envelope ⟨500, "Internal Server Error", false, none, none⟩).2.2.1
    (by norm_num)

/-- C7 counterexample: a deployment where the git status query itself
fails, with an error message that happens to contain the text
`Working directory has uncommitted changes`, is rethrown by the catch
handler as a hard abort even under policy warn, instead of degrading to
a warn-equivalent outcome. -/
theorem checkGitStatus_statusFailure_aborts_cex :
    (checkGitStatus .warn none
      ⟨.error "fatal: Working directory has uncommitted changes", .ok ()⟩).raised =
      some "fatal: Working directory has uncommitted changes" := by decide

/-- C7 amended: a failing status query degrades to the warn-equivalent
outcome (a logged warning, no abort, no commit) whenever its message
does not contain the marker text `Working directory has uncommitted
changes`; every hard abort of the guard carries a message containing
that marker, and policy strict with a positively detected change always
aborts with the strict message. -/
theorem checkGitStatus_degrade_amended
    (strategy : GitPolicy) (message : Option String) (env : GitEnv) :
    (∀ m, strategy ≠ .ignore → env.statusResult = .error m →
      jsIncludes m uncommittedMarker = false →
      checkGitStatus strategy message env = ⟨none, [cannotCheckMsg], false, true⟩) ∧
    (∀ e, (checkGitStatus strategy message env).raised = some e →
      jsIncludes e uncommittedMarker = true) ∧
    (∀ s, strategy = .strict → env.statusResult = .ok s → jsTrim s ≠ "" →
      (checkGitStatus strategy message env).raised = some strictAbortMsg) := by
  refine ⟨?_, ?_, ?_⟩
  · intro m hne hst hni
    simp [checkGitStatus, hne, hst, gitCatch, hni]
  · intro e he
    by_cases hig : strategy = .ignore
    · simp [checkGitStatus, hig] at he
    · cases hst : env.statusResult with
      | error m =>
        simp [checkGitStatus, hig, hst] at he
        exact gitCatch_raised _ _ _ he
      | ok out =>
        by_cases hd : jsTrim out ≠ ""
        · cases strategy with
          | strict =>
            simp [checkGitStatus, hst, hd] at he
            exact gitCatch_raised _ _ _ he
          | warn => simp [checkGitStatus, hst, hd] at he
          | autoCommit =>
            cases hc : env.commitResult with
            | ok u => simp [checkGitStatus, hst, hd, hc] at he
            | error m =>
              simp [checkGitStatus, hst, hd, hc] at he
              exact gitCatch_raised _ _ _ he
          | ignore => exact absurd rfl hig
        · simp [checkGitStatus, hig, hst, hd] at he
  · intro s hstrict hst hd
    subst hstrict
    have hinc : jsIncludes strictAbortMsg uncommittedMarker = true := by decide
    simp [checkGitStatus, hst, hd, gitCatch, hinc]

theorem checkGitStatus_degrade_amended_witness :
    checkGitStatus .strict none
      ⟨.error "Command failed: git status --porcelain", .ok ()⟩ =
      ⟨none, [cannotCheckMsg], false, true⟩ :=
  (checkGitStatus_degrade_amended .strict none
      ⟨.error "Command failed: git status --porcelain", .ok ()⟩).1
    "Command failed: git status --porcelain" (by decide) rfl (by decide)

/-- C8: whole-agent deletion attempts the all-versions artifact deletion
first and the agent-record deletion second in every proceeding run, and
a failing artifact deletion only logs a warning. -/
theorem deleteEntireAgent_bestEffort
    (force userConfirms : Bool) (env : AgentDeleteEnv)
    (hproceed : (force || userConfirms) = true) :
    (deleteEntireAgent force userConfirms env).calls =
      [.deleteAllAgentVersions, .deleteAgent] ∧
    (∀ m, env.versionsDeleteResult = .error m →
      (deleteEntireAgent force userConfirms env).warnings = [bundleDeleteWarnMsg]) := by
  constructor
  · cases ha : env.agentDeleteResult <;> simp [deleteEntireAgent, hproceed, ha]
  · intro m hm
    cases ha : env.agentDeleteResult <;> simp [deleteEntireAgent, hproceed, ha, hm]

theorem deleteEntireAgent_bestEffort_witness :
    (deleteEntireAgent true false ⟨.error "network timeout", .ok ()⟩).calls =
      [.deleteAllAgentVersions, .deleteAgent] ∧
    (deleteEntireAgent true false ⟨.error "network timeout", .ok ()⟩).warnings =
      [bundleDeleteWarnMsg] :=
  ⟨(deleteEntireAgent_bestEffort true false ⟨.error "network timeout", .ok ()⟩ rfl).1,
   (deleteEntireAgent_bestEffort true false ⟨.error "network timeout", .ok ()⟩ rfl).2
     "network timeout" rfl⟩

/-- C9 counterexample: supplying both `--all` and `--version` with an
empty version string passes both option checks (JavaScript truthiness
treats the empty string as absent), so the action reaches the
authentication check and the getAgents network call instead of failing
first. -/
theorem deleteAgentCommand_both_options_cex :
    deleteAgentCommandAction ⟨true, some "", false⟩ ⟨true, true, some "proj"⟩ =
      ⟨none, true, true⟩ := by decide

/-- C9 amended: supplying `--all` together with a non-empty `--version`,
or supplying neither `--all` nor a non-empty `--version`, fails with an
error before the authentication check and before any network call; an
empty `--version` string counts as absent. -/
theorem deleteAgentCommand_option_checks_amended
    (opts : DeleteAgentOptions) (env : DeleteCmdEnv) :
    (opts.all = true → jsTruthyStr opts.version = true →
      deleteAgentCommandAction opts env =
        ⟨some "Cannot use --all and --version options together", false, false⟩) ∧
    (opts.all = false → jsTruthyStr opts.version = false →
      deleteAgentCommandAction opts env =
        ⟨some "Must specify either --all or --version <version>", false, false⟩) := by
  constructor
  · intro h1 h2
    simp [deleteAgentCommandAction, h1, h2]
  · intro h1 h2
    simp [deleteAgentCommandAction, h1, h2]

theorem deleteAgentCommand_option_checks_amended_witness :
    deleteAgentCommandAction ⟨true, some "1.0.0", false⟩ ⟨true, true, some "proj"⟩ =
      ⟨some "Cannot use --all and --version options together", false, false⟩ :=
  (deleteAgentCommand_option_checks_amended ⟨true, some "1.0.0", false⟩
      ⟨true, true, some "proj"⟩).1 rfl (by decide)

/-- C10 counterexample: under auto-commit with a dirty tree, a failing
`git add and git commit` command whose error message contains the marker
text (for example because the command line embeds a user-supplied commit
message with that text) is rethrown and aborts the deployment instead of
being swallowed. -/
theorem checkGitStatus_autoCommit_failure_cex :
    (checkGitStatus .autoCommit (some "Working directory has uncommitted changes")
      ⟨.ok " M agents/demo/agent.ts",
       .error "Command failed: git add . && git commit -m \"Working directory has uncommitted changes\""⟩).raised =
      some "Command failed: git add . && git commit -m \"Working directory has uncommitted changes\"" := by
  decide

/-- C10 amended: under auto-commit with uncommitted changes present, a
failing git add/commit command is swallowed whenever its error message
does not contain the marker text `Working directory has uncommitted
changes`: the guard logs a warning and proceeds with the tree still
uncommitted. -/
theorem checkGitStatus_autoCommit_swallow_amended
    (env : GitEnv) (message : Option String) (s m : String)
    (hst : env.statusResult = .ok s) (hdirty : jsTrim s ≠ "")
    (hcommit : env.commitResult = .error m)
    (hmarker : jsIncludes m uncommittedMarker = false) :
    checkGitStatus .autoCommit message env = ⟨none, [cannotCheckMsg], false, true⟩ := by
  simp [checkGitStatus, hst, hdirty, hcommit, gitCatch, hmarker]

theorem checkGitStatus_autoCommit_swallow_amended_witness :
    checkGitStatus .autoCommit (some "wip")
      ⟨.ok " M agents/demo/agent.ts", .error "Command failed: git add . && git commit -m \"wip\""⟩ =
      ⟨none, [cannotCheckMsg], false, true⟩ :=
  checkGitStatus_autoCommit_swallow_amended _ (some "wip")
    " M agents/demo/agent.ts" "Command failed: git add . && git commit -m \"wip\""
    rfl (by decide) rfl (by decide)

end DirectiveCli
